import Mathlib

/-!
Verification of the Shenano orchestration pipeline against its
natural-language specification.

The development shallowly embeds the three source files of the repository:

* `src/src/App.tsx` — the Orchestrator (`handleGenerate`, `handleError`,
  `handleSaveApiKey`, `handleStartOver`, the view rendering conditions);
* the service module (present in two variants, `src/unnamed/part_000` and
  `src/unnamed/part_001`, whose request/response handling logic is
  identical) — `addQuotesToPrompt`, `engineerPrompt`, `generateImage`.

External model calls are represented by oracle values passed in
explicitly (an `Except` for a fallible text call, a candidate list for an
image-generation response); JavaScript strings become `String`, arrays
become `List`, thrown exceptions become `Except.error`, and JS `undefined`
property reads on a missing array element become an explicit `typeErr`
value.  Types that live in the repository's `types.ts` (absent from the
sources provided) are modelled from the spec where noted.
-/

/-- Set of characters removed by JavaScript `String.prototype.trim`
(ECMAScript WhiteSpace and LineTerminator code points, written as
explicit code points: tab, line feed, vertical tab, form feed, carriage
return, space, no-break space, ogham space mark, the en-quad to
hair-space range, line and paragraph separators, narrow no-break space,
medium mathematical space, ideographic space, byte-order mark). -/
def isJsWhitespace (c : Char) : Bool :=
  (c.toNat ∈ ([0x9, 0xa, 0xb, 0xc, 0xd, 0x20, 0xa0, 0x1680,
    0x2028, 0x2029, 0x202f, 0x205f, 0x3000, 0xfeff] : List Nat))
  || (0x2000 ≤ c.toNat && c.toNat ≤ 0x200a)

/-- Model of JavaScript `String.prototype.trim`: drop leading and trailing
whitespace characters. -/
def jsTrim (s : String) : String :=
  String.mk (((s.data.dropWhile isJsWhitespace).reverse.dropWhile
    isJsWhitespace).reverse)

/-- Helper for `strContains`: does `pat` occur as a contiguous sublist? -/
def containsSub (pat : List Char) : List Char → Bool
  | [] => pat.isPrefixOf []
  | c :: rest => pat.isPrefixOf (c :: rest) || containsSub pat rest

/-- Model of JavaScript `String.prototype.includes`. -/
def strContains (s pat : String) : Bool :=
  containsSub pat.data s.data

/-- Single-quote character, kept out of string literals. -/
def sqc : String := String.singleton (Char.ofNat 39)

/-- Model of an `ImageFile` value (from the repository's `types.ts`,
which is not among the provided sources; the fields are exactly the ones
the provided code reads: `file.name`, `file.type`, `base64`). -/
structure ImageFile where
  fileName : String
  fileType : String
  base64 : String
deriving DecidableEq, Repr

/-- Model of the `TargetModel` enum from `types.ts`. -/
inductive TargetModel where
  | IMAGE
  | VIDEO
deriving DecidableEq, Repr

/-- Model of the `AppState` enum from `types.ts`. -/
inductive AppState where
  | IDLE
  | LOADING
  | SUCCESS
  | ERROR
deriving DecidableEq, Repr

/-- Model of the `EngineeredPrompt` record.  Modelled from the spec:
`types.ts` is not among the provided sources; spec section 3 lists the
fields (analysis notes, optional grounding search query, target kind,
professional prompt, text-replication instruction, negative prompt). -/
structure EngineeredPrompt where
  analysis_notes : String
  grounding_search_query : Option String
  target_model : String
  professional_prompt : String
  text_replication_instruction : String
  negative_prompt : String
deriving DecidableEq, Repr

/-- The `lastConfig` snapshot persisted by the Orchestrator
(`App.tsx` lines 66-73): final prompt, text plates, reference images. -/
structure GenerationConfig where
  prompt : String
  textPlates : List ImageFile
  referenceImages : List ImageFile
deriving DecidableEq, Repr

/-- Embedding of `addQuotesToPrompt` (service module lines 104-136 of
`part_000`, identically lines 41-73 of `part_001`).  The external text
model call is the oracle `net`: `Except.error` covers any transport,
authentication or response-reading failure of the awaited call (all of
which land in the `catch`), `Except.ok t` is the `response.text` value.
The second component counts network calls performed.  The function is
total: the source catches every exception of the call and never rethrows. -/
def addQuotesToPrompt (net : Except String String) (userPrompt : String) :
    String × Nat :=
  if jsTrim userPrompt = "" then (userPrompt, 0)
  else
    match net with
    | .error _ => (userPrompt, 1)
    | .ok t =>
      let quotedPrompt := jsTrim t
      (if quotedPrompt = "" then userPrompt else quotedPrompt, 1)

/-- Splitting of a character list at every occurrence of a separator
character, mirroring a JavaScript `split` on a one-character separator. -/
def splitChar (sep : Char) : List Char → List (List Char)
  | [] => [[]]
  | c :: rest =>
    match splitChar sep rest with
    | [] => [[c]]
    | h :: t => if c = sep then [] :: h :: t else (c :: h) :: t

/-- Modelled from the spec: the quoted spans of a prompt are the
substrings enclosed in double quotes (sections 2 and 4.1); empty spans
are skipped ("no error path beyond text is empty").  Splitting on the
quote character puts the quoted material at the odd positions. -/
def quotedSpans (s : String) : List String :=
  ((((splitChar (Char.ofNat 34) s.data).map String.mk).enum.filter
      (fun p => p.1 % 2 == 1)).map Prod.snd).filter (fun t => t != "")

/-- Modelled from the spec: `extractTextAndGeneratePlates`
(`components/utils`, not among the provided sources) renders one text
plate per quoted span of its input, named sequentially
`text_plate_N.png` (spec sections 2, 4.1 and the engineering system
instruction); the bitmap payload is modelled by the source text, which is
faithful to the renderer being deterministic in its input text. -/
def extractTextAndGeneratePlates (s : String) : List ImageFile :=
  (quotedSpans s).enum.map
    (fun p => ⟨"text_plate_" ++ toString (p.1 + 1) ++ ".png", "image/png", p.2⟩)

/-- Model of one part of a multimodal request or response (the SDK type
is named `Part`, which clashes with a Mathlib name): either a text part
or an `inlineData` part carrying a mime type and base64 payload. -/
inductive ContentPart where
  | text (s : String)
  | inlineData (mimeType : String) (data : String)
deriving DecidableEq, Repr

/-- Embedding of the request-part construction of `engineerPrompt`
(service module lines 203-235 of `part_000`, identically lines 139-171
of `part_001`): a `parts` array seeded with the prompt/aspect-ratio text,
extended by a `forEach` push of a label and an image for each text plate,
then the same for each reference image, then a closing instruction. -/
def engineerParts (userPrompt : String) (textPlates : List ImageFile)
    (referenceImages : List ImageFile) (aspectRatio : String) : List ContentPart :=
  let parts : List ContentPart :=
    [.text ("User" ++ sqc ++ "s simple prompt: " ++ userPrompt ++
      "\nDesired Aspect Ratio: " ++ aspectRatio)]
  let parts := textPlates.enum.foldl
    (fun acc p => acc ++
      [.text ("Text Plate " ++ toString (p.1 + 1) ++ " (" ++
        p.2.fileName ++ "):"),
       .inlineData p.2.fileType p.2.base64]) parts
  let parts := referenceImages.enum.foldl
    (fun acc p => acc ++
      [.text ("User Reference Image " ++ toString (p.1 + 1) ++ " (" ++
        p.2.fileName ++ "):"),
       .inlineData p.2.fileType p.2.base64]) parts
  parts ++
    [.text "Now, generate the professional prompt JSON based on all inputs and the system instruction."]

/-- The pair of parts pushed for the text plate at zero-based index `i`. -/
def platePartPair (i : Nat) (im : ImageFile) : List ContentPart :=
  [.text ("Text Plate " ++ toString (i + 1) ++ " (" ++ im.fileName ++ "):"),
   .inlineData im.fileType im.base64]

/-- The pair of parts pushed for the user reference image at zero-based
index `i`. -/
def refPartPair (i : Nat) (im : ImageFile) : List ContentPart :=
  [.text ("User Reference Image " ++ toString (i + 1) ++ " (" ++
    im.fileName ++ "):"),
   .inlineData im.fileType im.base64]

/-- Model of a JavaScript JSON value, as produced by `JSON.parse`
(numbers are modelled by integers; only field structure matters here). -/
inductive Json where
  | null
  | bool (b : Bool)
  | num (n : Int)
  | str (s : String)
  | arr (elems : List Json)
  | obj (fields : List (String × Json))

/-- Field lookup on a JSON object; `none` on non-objects or missing keys,
mirroring a JS property read yielding `undefined`. -/
def lookupField (j : Json) (k : String) : Option Json :=
  match j with
  | .obj fields => fields.lookup k
  | _ => none

/-- Follows the spec's words (section 3 and the section 4.3 schema): a
JSON value conforms to the `EngineeredPrompt` schema when it is an object
whose `analysis_notes`, `professional_prompt`,
`text_replication_instruction` and `negative_prompt` fields are strings,
whose `target_model` is the string image or video, and whose
`grounding_search_query` is null, absent, or a string — a string being
allowed only when the target is image. -/
def conformsToEngineeredPromptSchema (j : Json) : Bool :=
  (match lookupField j "analysis_notes" with
    | some (.str _) => true
    | _ => false) &&
  (match lookupField j "professional_prompt" with
    | some (.str _) => true
    | _ => false) &&
  (match lookupField j "text_replication_instruction" with
    | some (.str _) => true
    | _ => false) &&
  (match lookupField j "negative_prompt" with
    | some (.str _) => true
    | _ => false) &&
  (match lookupField j "target_model" with
    | some (.str t) => t == "image" || t == "video"
    | _ => false) &&
  (match lookupField j "grounding_search_query" with
    | some .null => true
    | none => true
    | some (.str _) =>
      (match lookupField j "target_model" with
        | some (.str t) => t == "image"
        | _ => false)
    | _ => false)

/-- Embedding of `engineerPrompt` (service module lines 193-262 of
`part_000`, identically lines 129-198 of `part_001`).  `parse` stands for
the external `JSON.parse` (`none` models a parse exception); `net` is the
awaited model call, whose transport failure (`Except.error`) propagates
uncaught since the `try` block only wraps the parsing.  The result is the
parsed JSON value: the source casts `parsedJson as EngineeredPrompt`
without inspecting any field.  The second component counts model requests
performed — the body issues exactly one `generateContent` call and
contains no retry logic. -/
def engineerPrompt (parse : String → Option Json)
    (net : Except String String) (userPrompt : String)
    (targetModel : TargetModel) (textPlates : List ImageFile)
    (referenceImages : List ImageFile) (aspectRatio : String) :
    Except String Json × Nat :=
  let _parts := engineerParts userPrompt textPlates referenceImages aspectRatio
  let _target := targetModel
  match net with
  | .error e => (.error e, 1)
  | .ok responseText =>
    match parse responseText with
    | some parsedJson => (.ok parsedJson, 1)
    | none =>
      (.error ("The AI returned an invalid response. Please try again. Raw response: "
        ++ responseText), 1)

/-- An exception value thrown inside `generateImage`: either a JS
`TypeError` from reading a property of `undefined`, or an explicitly
thrown `Error`. -/
inductive JsError where
  | typeErr (msg : String)
  | thrown (msg : String)
deriving DecidableEq, Repr

/-- The message carried by a thrown error, as read by `error.message`. -/
def jsErrorMessage : JsError → String
  | .typeErr m => m
  | .thrown m => m

/-- Model of a `Content` value of a model response. -/
structure Content where
  parts : List ContentPart
deriving DecidableEq, Repr

/-- Model of a response `Candidate`; the provided code reads only
`candidate.content.parts`. -/
structure Candidate where
  content : Content
deriving DecidableEq, Repr

/-- First `inlineData` part of a part list, mirroring the source's
`for` loop that returns on the first part whose `inlineData` is set. -/
def firstInlineData : List ContentPart → Option (String × String)
  | [] => none
  | .text _ :: rest => firstInlineData rest
  | .inlineData m d :: _ => some (m, d)

/-- First image payload of a whole response: the first `inlineData` part
of the first candidate, if any. -/
def firstImagePart (response : List Candidate) : Option (String × String) :=
  match response with
  | [] => none
  | c :: _ => firstInlineData c.content.parts

/-- Embedding of `generateImage` (service module lines 299-335 of
`part_000`, identically lines 239-275 of `part_001`).  `response` is the
candidate list of the awaited call's response.  The source indexes
`response.candidates[0]` without a guard, so an empty candidate list
makes the subsequent `.content` read throw a `TypeError` rather than the
no-image error. -/
def generateImage (prompt : String) (textPlates : List ImageFile)
    (referenceImages : List ImageFile) (response : List Candidate) :
    Except JsError String :=
  let allImages := textPlates ++ referenceImages
  let _parts : List ContentPart :=
    .text prompt :: allImages.map (fun im => .inlineData im.fileType im.base64)
  match response with
  | [] =>
    .error (.typeErr ("Cannot read properties of undefined (reading " ++
      sqc ++ "content" ++ sqc ++ ")"))
  | cand :: _ =>
    match firstInlineData cand.content.parts with
    | some (_, base64ImageBytes) =>
      .ok ("data:image/png;base64," ++ base64ImageBytes)
    | none => .error (.thrown "No image was generated by the model.")

/-- Decides whether a `generateImage` outcome is a failure whose thrown
message speaks of a missing image. -/
def isNoImageError : Except JsError String → Bool
  | .error (.thrown m) => strContains m "No image"
  | _ => false

/-- The React state of the `App` component (`App.tsx` lines 48-73)
together with the credential persisted in local storage
(`gemini-api-key`).  The aspect ratio is carried as its wire string
(types.ts is not among the provided sources; the three choices are
Square 1:1, Portrait 9:16, Landscape 16:9 per the spec and the form). -/
structure Model where
  appState : AppState
  errorMessage : Option String
  apiKey : Option String
  isApiKeyModalOpen : Bool
  apiKeyError : Option String
  userPrompt : String
  referenceImages : List ImageFile
  aspectRatio : String
  resultUrl : Option String
  lastConfig : Option GenerationConfig
  storedApiKey : Option String
deriving DecidableEq, Repr

/-- Embedding of `handleError` (`App.tsx` lines 93-115).  `error` is
`some details` when the caught value is an `Error` with message
`details`, and `none` otherwise (then the details default to the unknown
message).  `state` is the third parameter, whose default at every call
site in the source is `AppState.ERROR`. -/
def handleError (m : Model) (message : String) (error : Option String)
    (state : AppState) : Model :=
  let errorDetails :=
    match error with
    | some s => s
    | none => "An unknown error occurred."
  if strContains errorDetails "API key not valid"
      || strContains errorDetails "API_KEY_INVALID" then
    { m with
      storedApiKey := none
      apiKey := none
      apiKeyError := some "Your API key is invalid. Please enter a valid key."
      isApiKeyModalOpen := true
      appState := .IDLE }
  else
    { m with
      errorMessage := some (message ++ ": " ++ errorDetails)
      appState := state }

/-- Embedding of `handleSaveApiKey` (`App.tsx` lines 85-90). -/
def handleSaveApiKey (m : Model) (newApiKey : String) : Model :=
  { m with
    apiKey := some newApiKey
    storedApiKey := some newApiKey
    isApiKeyModalOpen := false
    apiKeyError := none }

/-- Embedding of `handleStartOver` (`App.tsx` lines 182-190). -/
def handleStartOver (m : Model) : Model :=
  { m with
    appState := .IDLE
    resultUrl := none
    errorMessage := none
    userPrompt := ""
    referenceImages := []
    lastConfig := none
    aspectRatio := "1:1" }

/-- The external world of one generation attempt: the outcome of the
quoting model call (as consumed by `addQuotesToPrompt`), the outcome of
the awaited `engineerPrompt` call (abstracted at the orchestrator's
typed view, `EngineeredPrompt`), and the candidate list of the
image-generation response (as consumed by `generateImage`). -/
structure GenEnv where
  quoteNet : Except String String
  engineerRes : Except String EngineeredPrompt
  genResponse : List Candidate

/-- One external service invocation performed by the Orchestrator,
recorded with the arguments it was given. -/
inductive Call where
  | quote (prompt : String)
  | renderPlate (text : String)
  | engineer (prompt : String) (target : TargetModel)
      (textPlates referenceImages : List ImageFile) (aspectRatio : String)
  | grounding (query : String)
  | genImage (prompt : String) (textPlates referenceImages : List ImageFile)
deriving DecidableEq, Repr

/-- Decides whether a recorded call invokes the Grounding Image Client. -/
def isGroundingCall : Call → Bool
  | .grounding _ => true
  | _ => false

/-- The final prompt assembled from an engineered prompt
(`App.tsx` line 158). -/
def promptFromEngineered (ep : EngineeredPrompt) : String :=
  ep.professional_prompt ++ "\n\n" ++ ep.text_replication_instruction ++
    "\n\nNegative Prompt: " ++ ep.negative_prompt

/-- Embedding of the synchronous prefix of `handleGenerate`
(`App.tsx` lines 117-136), up to the first `await`: the missing-key
early exit, the empty-prompt rejection, and entering the loading state.
The boolean tells whether the asynchronous body runs. -/
def handleGenerateSync (m : Model) (retryConfig : Option GenerationConfig) :
    Model × Bool :=
  if m.apiKey = none then
    ({ m with
        isApiKeyModalOpen := true
        apiKeyError := some "An API key is required to generate images." },
      false)
  else
    let isRetry := retryConfig.isSome
    let currentPrompt := if isRetry then "" else m.userPrompt
    if ¬isRetry ∧ jsTrim currentPrompt = "" then
      (handleError m "Please enter a prompt to generate." none .ERROR, false)
    else
      ({ m with appState := .LOADING, resultUrl := none, errorMessage := none },
        true)

/-- Embedding of the asynchronous body of `handleGenerate`
(`App.tsx` lines 138-179), run from the loading state: the retry branch
reuses the given config; the first-generation branch quotes the prompt,
renders the plates, engineers the prompt, persists `lastConfig`, and
generates; every thrown error lands in `handleError`.  The second
component is the ordered list of external service calls performed. -/
def handleGenerateCont (env : GenEnv) (m : Model)
    (retryConfig : Option GenerationConfig) : Model × List Call :=
  match retryConfig with
  | some cfg =>
    let m2 := { m with lastConfig := some cfg }
    let trace := [Call.genImage cfg.prompt cfg.textPlates cfg.referenceImages]
    match generateImage cfg.prompt cfg.textPlates cfg.referenceImages
        env.genResponse with
    | .ok objectUrl =>
      ({ m2 with resultUrl := some objectUrl, appState := .SUCCESS }, trace)
    | .error err =>
      (handleError m2 "Generation failed" (some (jsErrorMessage err)) .ERROR,
        trace)
  | none =>
    let quotedPrompt := (addQuotesToPrompt env.quoteNet m.userPrompt).1
    let textPlates := extractTextAndGeneratePlates quotedPrompt
    let preTrace :=
      Call.quote m.userPrompt ::
        ((quotedSpans quotedPrompt).map Call.renderPlate ++
          [Call.engineer quotedPrompt TargetModel.IMAGE textPlates
            m.referenceImages m.aspectRatio])
    match env.engineerRes with
    | .error e =>
      (handleError m "Generation failed" (some e) .ERROR, preTrace)
    | .ok engineeredPrompt =>
      let promptToUse := promptFromEngineered engineeredPrompt
      let m2 := { m with
        lastConfig := some ⟨promptToUse, textPlates, m.referenceImages⟩ }
      let trace := preTrace ++
        [Call.genImage promptToUse textPlates m.referenceImages]
      match generateImage promptToUse textPlates m.referenceImages
          env.genResponse with
      | .ok objectUrl =>
        ({ m2 with resultUrl := some objectUrl, appState := .SUCCESS }, trace)
      | .error err =>
        (handleError m2 "Generation failed" (some (jsErrorMessage err)) .ERROR,
          trace)

/-- Embedding of a whole `handleGenerate` invocation: the synchronous
prefix followed, when it proceeds, by the asynchronous body. -/
def handleGenerate (env : GenEnv) (m : Model)
    (retryConfig : Option GenerationConfig) : Model × List Call :=
  let (m1, proceed) := handleGenerateSync m retryConfig
  if proceed then handleGenerateCont env m1 retryConfig else (m1, [])

/-- The component state right after mounting (`useState` initials of
`App.tsx` lines 49-73 followed by the `useEffect` of lines 75-83 reading
the stored credential). -/
def initModel (stored : Option String) : Model :=
  match stored with
  | some k =>
    { appState := .IDLE, errorMessage := none, apiKey := some k,
      isApiKeyModalOpen := false, apiKeyError := none, userPrompt := "",
      referenceImages := [], aspectRatio := "1:1", resultUrl := none,
      lastConfig := none, storedApiKey := some k }
  | none =>
    { appState := .IDLE, errorMessage := none, apiKey := none,
      isApiKeyModalOpen := true, apiKeyError := none, userPrompt := "",
      referenceImages := [], aspectRatio := "1:1", resultUrl := none,
      lastConfig := none, storedApiKey := none }

/-- A user or system event the mounted application reacts to.  A
generation is split into its synchronous start and its asynchronous
completion so that the loading state is an observable state of the
system; the completion event carries the pending retry config and the
external outcomes. -/
inductive Event where
  | saveApiKey (k : String)
  | setUserPrompt (s : String)
  | setReferenceImages (l : List ImageFile)
  | setAspectRatio (r : String)
  | genStart (retryConfig : Option GenerationConfig)
  | genFinish (retryConfig : Option GenerationConfig) (env : GenEnv)
  | startOver

/-- The transition function of the application: how each event rewrites
the component state.  `genFinish` applies only from the loading state
(the continuation of the single in-flight generation). -/
def step (m : Model) (e : Event) : Model :=
  match e with
  | .saveApiKey k => handleSaveApiKey m k
  | .setUserPrompt s => { m with userPrompt := s }
  | .setReferenceImages l => { m with referenceImages := l }
  | .setAspectRatio r => { m with aspectRatio := r }
  | .genStart cfg => (handleGenerateSync m cfg).1
  | .genFinish cfg env =>
    if m.appState = .LOADING then (handleGenerateCont env m cfg).1 else m
  | .startOver => handleStartOver m

/-- The states the mounted application can reach: an initial state for
either stored-credential situation, closed under `step`. -/
inductive Reachable : Model → Prop where
  | base (stored : Option String) : Reachable (initModel stored)
  | next {m : Model} (e : Event) : Reachable m → Reachable (step m e)

/-- How many of the four user-facing views of the spec are rendered in a
state (`App.tsx` lines 208-237): the credential modal, the loading
indicator, the error view, the success view. -/
def viewsShown (m : Model) : Nat :=
  (if m.isApiKeyModalOpen then 1 else 0) +
  (if m.appState = .LOADING then 1 else 0) +
  (if m.appState = .ERROR ∧ m.errorMessage.isSome then 1 else 0) +
  (if m.appState = .SUCCESS ∧ m.resultUrl.isSome then 1 else 0)

/-- The inductive invariant of the application state: the credential
modal is open only in the idle state with no credential in memory, and
any non-idle state holds a credential. -/
def AppInv (m : Model) : Prop :=
  (m.isApiKeyModalOpen = true → m.appState = .IDLE ∧ m.apiKey = none) ∧
  (m.appState ≠ .IDLE → m.apiKey ≠ none)

/-- Decides whether an `engineerPrompt` outcome is a success. -/
def exceptIsOk : Except String Json → Bool
  | .ok _ => true
  | .error _ => false

/-- A concrete engineered prompt carrying a non-null grounding query. -/
def epAzadi : EngineeredPrompt :=
  { analysis_notes := "analysis"
    grounding_search_query := some "Azadi Tower Tehran"
    target_model := "image"
    professional_prompt := "A photorealistic scene of the Azadi Tower"
    text_replication_instruction := "Replicate every text plate exactly"
    negative_prompt := "blurry, low-quality" }

/-- A concrete generation environment: quoting succeeds, engineering
returns `epAzadi`, and the image model answers with one inline image. -/
def envAzadi : GenEnv :=
  { quoteNet := .ok "A photo of the Azadi Tower at sunset"
    engineerRes := .ok epAzadi
    genResponse := [⟨⟨[.inlineData "image/png" "QUJD"]⟩⟩] }

/-- A concrete mounted state holding a credential and a prompt. -/
def mAzadi : Model :=
  { initModel (some "key") with
    userPrompt := "A photo of the Azadi Tower at sunset" }

/-- Pushing a block of parts per element, as the source's `forEach`
does, appends the blocks in element order. -/
theorem foldl_append_blocks (f : Nat × ImageFile → List ContentPart)
    (l : List (Nat × ImageFile)) (acc : List ContentPart) :
    l.foldl (fun a x => a ++ f x) acc = acc ++ (l.map f).flatten := by
  induction l generalizing acc with
  | nil => simp
  | cons x xs ih => simp [ih, List.append_assoc]

/-- C9: `engineerPrompt` builds the multimodal request parts in a fixed
order — first a text part containing the quoted prompt and the requested
aspect ratio, then for each text plate a sequentially numbered label
followed by the image data, then for each user reference image a
sequentially numbered label followed by the image data, then a closing
instruction to produce the final JSON. -/
theorem engineerParts_order (p : String) (tp ri : List ImageFile)
    (ar : String) :
    engineerParts p tp ri ar =
      ContentPart.text ("User" ++ sqc ++ "s simple prompt: " ++ p ++
          "\nDesired Aspect Ratio: " ++ ar) ::
        ((tp.enum.map (fun q => platePartPair q.1 q.2)).flatten ++
          ((ri.enum.map (fun q => refPartPair q.1 q.2)).flatten ++
            [ContentPart.text "Now, generate the professional prompt JSON based on all inputs and the system instruction."])) := by
  simp only [engineerParts, foldl_append_blocks, platePartPair, refPartPair]
  simp [List.append_assoc]

/-- C3: for every non-empty prompt, `addQuotesToPrompt` never throws (it
is a total function of the call's outcome): on any transport,
authentication, or parsing failure of the text-generation call
(`Except.error`), and also when the model's response is an empty string,
it returns the original prompt unchanged. -/
theorem addQuotesToPrompt_degrades (p e : String) (_hp : jsTrim p ≠ "") :
    (addQuotesToPrompt (.error e) p).1 = p ∧
    (addQuotesToPrompt (.ok "") p).1 = p := by
  constructor
  · unfold addQuotesToPrompt
    split <;> rfl
  · unfold addQuotesToPrompt
    split
    · rfl
    · simp [jsTrim]

/-- Witness for C3 at a concrete prompt. -/
theorem addQuotesToPrompt_degrades_witness :
    jsTrim "A red stop sign" ≠ "" ∧
    ((addQuotesToPrompt (.error "network down") "A red stop sign").1 =
        "A red stop sign" ∧
      (addQuotesToPrompt (.ok "") "A red stop sign").1 = "A red stop sign") :=
  ⟨by decide, addQuotesToPrompt_degrades "A red stop sign" "network down"
    (by decide)⟩

/-- C4: for every prompt that is empty or consists only of whitespace,
`addQuotesToPrompt` returns the input string unchanged and performs no
network call (the call counter stays at zero). -/
theorem addQuotesToPrompt_whitespace_noop (net : Except String String)
    (p : String) (hp : jsTrim p = "") :
    addQuotesToPrompt net p = (p, 0) := by
  simp [addQuotesToPrompt, hp]

/-- Witness for C4 at a concrete whitespace-only prompt. -/
theorem addQuotesToPrompt_whitespace_noop_witness :
    jsTrim "  \n " = "" ∧
    addQuotesToPrompt (Except.ok "ignored") "  \n " = ("  \n ", 0) :=
  ⟨by decide,
    addQuotesToPrompt_whitespace_noop (Except.ok "ignored") "  \n "
      (by decide)⟩

/-- C5: for every prompt-engineering response whose text is not valid
structured data (`parse` returns `none`), `engineerPrompt` fails with an
error whose message includes the raw unparsed response text, and the
failure is not retried automatically: exactly one model request is
performed. -/
theorem engineerPrompt_parse_failure (parse : String → Option Json)
    (txt p ar : String) (t : TargetModel) (pl rf : List ImageFile)
    (hfail : parse txt = none) :
    (engineerPrompt parse (.ok txt) p t pl rf ar).1 =
      .error ("The AI returned an invalid response. Please try again. Raw response: "
        ++ txt) ∧
    (engineerPrompt parse (.ok txt) p t pl rf ar).2 = 1 := by
  constructor <;> simp [engineerPrompt, hfail]

/-- Witness for C5 at a concrete unparseable response. -/
theorem engineerPrompt_parse_failure_witness :
    (fun _ : String => (none : Option Json)) "not json" = none ∧
    ((engineerPrompt (fun _ => none) (.ok "not json") "p" TargetModel.IMAGE
        [] [] "1:1").1 =
      .error ("The AI returned an invalid response. Please try again. Raw response: "
        ++ "not json") ∧
     (engineerPrompt (fun _ => none) (.ok "not json") "p" TargetModel.IMAGE
        [] [] "1:1").2 = 1) :=
  ⟨rfl, engineerPrompt_parse_failure (fun _ => none) "not json" "p" "1:1"
    TargetModel.IMAGE [] [] rfl⟩

/-- C10: `engineerPrompt` (given a completed response) throws if and only
if the response text fails JSON parsing, and any parseable response is
returned as the result without any validation of the schema's required
fields — in particular the JSON value `null`, which conforms to no part
of the `EngineeredPrompt` schema, is returned successfully. -/
theorem engineerPrompt_no_validation (parse : String → Option Json)
    (txt p ar : String) (t : TargetModel) (pl rf : List ImageFile) :
    (exceptIsOk (engineerPrompt parse (.ok txt) p t pl rf ar).1 =
      (parse txt).isSome) ∧
    (∀ j : Json, parse txt = some j →
      (engineerPrompt parse (.ok txt) p t pl rf ar).1 = .ok j) ∧
    conformsToEngineeredPromptSchema Json.null = false ∧
    (engineerPrompt (fun _ => some Json.null) (.ok "null") p t pl rf
      ar).1 = .ok Json.null := by
  refine ⟨?_, ?_, rfl, rfl⟩
  · cases h : parse txt <;> simp [engineerPrompt, h, exceptIsOk]
  · intro j hj
    simp [engineerPrompt, hj]

/-- Witness for C10: the parseable response `null` is returned although
it conforms to no field of the schema. -/
theorem engineerPrompt_no_validation_witness :
    (engineerPrompt (fun _ => some Json.null) (Except.ok "null") "p"
      TargetModel.IMAGE [] [] "1:1").1 = Except.ok Json.null :=
  (engineerPrompt_no_validation (fun _ => some Json.null) "null" "p" "1:1"
    TargetModel.IMAGE [] []).2.1 Json.null rfl

/-- Counterexample to C6 as stated: a response with an empty candidate
list contains no image payload, yet `generateImage` fails with a
`TypeError` from the unguarded `candidates[0]` read, not with the
no-image error. -/
theorem generateImage_empty_candidates_counterexample :
    generateImage "a prompt" [] [] [] =
      .error (.typeErr ("Cannot read properties of undefined (reading " ++
        sqc ++ "content" ++ sqc ++ ")")) ∧
    isNoImageError (generateImage "a prompt" [] [] []) = false :=
  ⟨rfl, rfl⟩

/-- C6 as amended: for every response with at least one candidate,
`generateImage` returns the first image payload of the first candidate
encoded as a data URL, and fails with the no-image error when that
candidate's parts contain no image payload; a response with no
candidates instead fails with a type error. -/
theorem generateImage_first_candidate (prompt : String)
    (tp ri : List ImageFile) (cand : Candidate) (rest : List Candidate) :
    (firstInlineData cand.content.parts = none →
      generateImage prompt tp ri (cand :: rest) =
        .error (.thrown "No image was generated by the model.")) ∧
    (∀ mm dd, firstInlineData cand.content.parts = some (mm, dd) →
      generateImage prompt tp ri (cand :: rest) =
        .ok ("data:image/png;base64," ++ dd)) := by
  constructor
  · intro h
    simp [generateImage, h]
  · intro mm dd h
    simp [generateImage, h]

/-- Witness for the amended C6 at a concrete text-only candidate. -/
theorem generateImage_first_candidate_witness :
    firstInlineData (Candidate.mk (Content.mk
      [ContentPart.text "refusal"])).content.parts = none ∧
    generateImage "a prompt" [] [] [⟨⟨[ContentPart.text "refusal"]⟩⟩] =
      .error (.thrown "No image was generated by the model.") :=
  ⟨rfl, (generateImage_first_candidate "a prompt" [] []
    ⟨⟨[ContentPart.text "refusal"]⟩⟩ []).1 rfl⟩

/-- C7: every failure reaching `handleError` (with its default target
state) is classified by matching the two known error substrings: a
matching invalid-credential failure clears the stored credential,
re-prompts for a credential and resets the state to idle, and every
other failure populates the single user-visible error message and moves
the state to error. -/
theorem handleError_classifies (m : Model) (message details : String) :
    ((strContains details "API key not valid"
        || strContains details "API_KEY_INVALID") = true →
      handleError m message (some details) .ERROR =
        { m with
          storedApiKey := none
          apiKey := none
          apiKeyError := some "Your API key is invalid. Please enter a valid key."
          isApiKeyModalOpen := true
          appState := .IDLE }) ∧
    ((strContains details "API key not valid"
        || strContains details "API_KEY_INVALID") = false →
      handleError m message (some details) .ERROR =
        { m with
          errorMessage := some (message ++ ": " ++ details)
          appState := .ERROR }) := by
  constructor <;> intro h <;> simp [handleError, h]

/-- Witness for C7 at a concrete invalid-credential failure. -/
theorem handleError_classifies_witness :
    (strContains "API key not valid." "API key not valid"
      || strContains "API key not valid." "API_KEY_INVALID") = true ∧
    handleError (initModel (some "key")) "Generation failed"
        (some "API key not valid.") AppState.ERROR =
      { initModel (some "key") with
        storedApiKey := none
        apiKey := none
        apiKeyError := some "Your API key is invalid. Please enter a valid key."
        isApiKeyModalOpen := true
        appState := AppState.IDLE } :=
  ⟨by decide, (handleError_classifies (initModel (some "key"))
    "Generation failed" "API key not valid.").1 (by decide)⟩

/-- A list of plate-rendering calls never contains a grounding call. -/
theorem any_renderPlate_false (l : List String) :
    (l.map Call.renderPlate).any isGroundingCall = false := by
  induction l with
  | nil => rfl
  | cons h t ih => simp [isGroundingCall, ih]

/-- With a credential present and a non-blank prompt, the synchronous
prefix of a non-retry generation enters the loading state and proceeds. -/
theorem handleGenerateSync_proceeds (m : Model) (k : String)
    (hk : m.apiKey = some k) (hp : jsTrim m.userPrompt ≠ "") :
    handleGenerateSync m none =
      ({ m with appState := .LOADING, resultUrl := none, errorMessage := none },
        true) := by
  unfold handleGenerateSync
  rw [hk]
  simp [hp]

/-- With a credential present, the synchronous prefix of a retry enters
the loading state and proceeds without inspecting the prompt field. -/
theorem handleGenerateSync_retry (m : Model) (k : String)
    (cfg : GenerationConfig) (hk : m.apiKey = some k) :
    handleGenerateSync m (some cfg) =
      ({ m with appState := .LOADING, resultUrl := none, errorMessage := none },
        true) := by
  unfold handleGenerateSync
  rw [hk]
  simp

/-- The calls performed by the asynchronous body of a first generation
whose engineering step succeeds, in order: quoting, one plate rendering
per quoted span, engineering, image generation — nothing else. -/
theorem handleGenerateCont_first_trace (env : GenEnv) (m : Model)
    (ep : EngineeredPrompt) (he : env.engineerRes = .ok ep) :
    (handleGenerateCont env m none).2 =
      Call.quote m.userPrompt ::
        ((quotedSpans ((addQuotesToPrompt env.quoteNet m.userPrompt).1)).map
            Call.renderPlate ++
          [Call.engineer ((addQuotesToPrompt env.quoteNet m.userPrompt).1)
              TargetModel.IMAGE
              (extractTextAndGeneratePlates
                ((addQuotesToPrompt env.quoteNet m.userPrompt).1))
              m.referenceImages m.aspectRatio,
            Call.genImage (promptFromEngineered ep)
              (extractTextAndGeneratePlates
                ((addQuotesToPrompt env.quoteNet m.userPrompt).1))
              m.referenceImages]) := by
  unfold handleGenerateCont
  rw [he]
  cases hgen : generateImage (promptFromEngineered ep)
      (extractTextAndGeneratePlates
        ((addQuotesToPrompt env.quoteNet m.userPrompt).1))
      m.referenceImages env.genResponse <;>
    simp [hgen, List.append_assoc]

/-- The asynchronous body of a retry performs exactly one call: image
generation with the retried config's prompt, plates and references. -/
theorem handleGenerateCont_retry_trace (env : GenEnv) (m : Model)
    (cfg : GenerationConfig) :
    (handleGenerateCont env m (some cfg)).2 =
      [Call.genImage cfg.prompt cfg.textPlates cfg.referenceImages] := by
  unfold handleGenerateCont
  cases hgen : generateImage cfg.prompt cfg.textPlates cfg.referenceImages
      env.genResponse <;>
    simp [hgen]

/-- Counterexample to C1 as stated: a successful first generation whose
engineered prompt carries the non-null grounding query
`Azadi Tower Tehran` performs no Grounding Image Client call — the
orchestrator never invokes `getGroundingImage`. -/
theorem handleGenerate_no_grounding_counterexample :
    envAzadi.engineerRes = Except.ok epAzadi ∧
    epAzadi.grounding_search_query = some "Azadi Tower Tehran" ∧
    (handleGenerate envAzadi mAzadi none).1.appState = AppState.SUCCESS ∧
    (handleGenerate envAzadi mAzadi none).2.any isGroundingCall = false := by
  refine ⟨rfl, rfl, ?_, ?_⟩ <;> decide

/-- C1 as amended: on a first (non-retry) generation the Orchestrator
runs prompt quoting, then text-plate rendering once per quoted span,
then prompt engineering, then image generation, in that order — and the
Grounding Image Client is never invoked, whether or not the engineered
prompt's `grounding_search_query` is non-null. -/
theorem handleGenerate_first_order (env : GenEnv) (m : Model) (k : String)
    (ep : EngineeredPrompt) (hk : m.apiKey = some k)
    (hp : jsTrim m.userPrompt ≠ "") (he : env.engineerRes = .ok ep) :
    (handleGenerate env m none).2 =
      Call.quote m.userPrompt ::
        ((quotedSpans ((addQuotesToPrompt env.quoteNet m.userPrompt).1)).map
            Call.renderPlate ++
          [Call.engineer ((addQuotesToPrompt env.quoteNet m.userPrompt).1)
              TargetModel.IMAGE
              (extractTextAndGeneratePlates
                ((addQuotesToPrompt env.quoteNet m.userPrompt).1))
              m.referenceImages m.aspectRatio,
            Call.genImage (promptFromEngineered ep)
              (extractTextAndGeneratePlates
                ((addQuotesToPrompt env.quoteNet m.userPrompt).1))
              m.referenceImages]) ∧
    (handleGenerate env m none).2.any isGroundingCall = false := by
  have htrace : (handleGenerate env m none).2 =
      Call.quote m.userPrompt ::
        ((quotedSpans ((addQuotesToPrompt env.quoteNet m.userPrompt).1)).map
            Call.renderPlate ++
          [Call.engineer ((addQuotesToPrompt env.quoteNet m.userPrompt).1)
              TargetModel.IMAGE
              (extractTextAndGeneratePlates
                ((addQuotesToPrompt env.quoteNet m.userPrompt).1))
              m.referenceImages m.aspectRatio,
            Call.genImage (promptFromEngineered ep)
              (extractTextAndGeneratePlates
                ((addQuotesToPrompt env.quoteNet m.userPrompt).1))
              m.referenceImages]) := by
    unfold handleGenerate
    rw [handleGenerateSync_proceeds m k hk hp]
    simp only [if_pos]
    rw [handleGenerateCont_first_trace env _ ep he]
  refine ⟨htrace, ?_⟩
  rw [htrace]
  simp [isGroundingCall, any_renderPlate_false]

/-- Witness for the amended C1 at a concrete first generation. -/
theorem handleGenerate_first_order_witness :
    mAzadi.apiKey = some "key" ∧ jsTrim mAzadi.userPrompt ≠ "" ∧
    ((handleGenerate envAzadi mAzadi none).2 =
      Call.quote mAzadi.userPrompt ::
        ((quotedSpans ((addQuotesToPrompt envAzadi.quoteNet
            mAzadi.userPrompt).1)).map Call.renderPlate ++
          [Call.engineer ((addQuotesToPrompt envAzadi.quoteNet
                mAzadi.userPrompt).1)
              TargetModel.IMAGE
              (extractTextAndGeneratePlates
                ((addQuotesToPrompt envAzadi.quoteNet mAzadi.userPrompt).1))
              mAzadi.referenceImages mAzadi.aspectRatio,
            Call.genImage (promptFromEngineered epAzadi)
              (extractTextAndGeneratePlates
                ((addQuotesToPrompt envAzadi.quoteNet mAzadi.userPrompt).1))
              mAzadi.referenceImages]) ∧
      (handleGenerate envAzadi mAzadi none).2.any isGroundingCall = false) :=
  ⟨rfl, by decide, handleGenerate_first_order envAzadi mAzadi "key" epAzadi
    rfl (by decide) rfl⟩

/-- A response whose first candidate carries an image payload makes
`generateImage` succeed with that payload, whatever the prompt and
attachments. -/
theorem generateImage_ok_of_first (prompt : String) (tp ri : List ImageFile)
    (resp : List Candidate) (mm dd : String)
    (h : firstImagePart resp = some (mm, dd)) :
    generateImage prompt tp ri resp = .ok ("data:image/png;base64," ++ dd) := by
  cases resp with
  | nil => simp [firstImagePart] at h
  | cons c rest =>
    simp only [firstImagePart] at h
    simp [generateImage, h]

/-- The state produced by the asynchronous body of a first generation
whose engineering and image generation both succeed. -/
theorem handleGenerateCont_first_success (env : GenEnv) (m : Model)
    (ep : EngineeredPrompt) (mm dd : String)
    (he : env.engineerRes = .ok ep)
    (hg : firstImagePart env.genResponse = some (mm, dd)) :
    (handleGenerateCont env m none).1 =
      { m with
        appState := .SUCCESS
        resultUrl := some ("data:image/png;base64," ++ dd)
        lastConfig := some ⟨promptFromEngineered ep,
          extractTextAndGeneratePlates
            ((addQuotesToPrompt env.quoteNet m.userPrompt).1),
          m.referenceImages⟩ } := by
  have hok := generateImage_ok_of_first (promptFromEngineered ep)
    (extractTextAndGeneratePlates
      ((addQuotesToPrompt env.quoteNet m.userPrompt).1))
    m.referenceImages env.genResponse mm dd hg
  simp only [handleGenerateCont, he, hok]

/-- The last element of a quote-render-engineer-generate trace. -/
theorem getLast_cons_append_pair (a e1 e2 : Call) (l : List Call) :
    (a :: (l ++ [e1, e2])).getLast? = some e2 := by
  have h : a :: (l ++ [e1, e2]) = (a :: (l ++ [e1])) ++ [e2] := by simp
  rw [h, List.getLast?_concat]

/-- C2: invoking retry after a successful first generation re-invokes
only the image-generation step, reusing the persisted
`GenerationConfig` verbatim: the first run ends in success with the
assembled prompt, plates and references persisted as `lastConfig`, its
last call is image generation with exactly those three values, and the
retry's whole call trace is a single image-generation call with the
identical prompt, text-plate list and reference-image list. -/
theorem handleGenerate_retry_reuses (env1 env2 : GenEnv) (m : Model)
    (k mm dd : String) (ep : EngineeredPrompt)
    (hk : m.apiKey = some k) (hp : jsTrim m.userPrompt ≠ "")
    (he : env1.engineerRes = .ok ep)
    (hg : firstImagePart env1.genResponse = some (mm, dd)) :
    (handleGenerate env1 m none).1.appState = AppState.SUCCESS ∧
    (handleGenerate env1 m none).1.lastConfig =
      some ⟨promptFromEngineered ep,
        extractTextAndGeneratePlates
          ((addQuotesToPrompt env1.quoteNet m.userPrompt).1),
        m.referenceImages⟩ ∧
    (handleGenerate env1 m none).2.getLast? =
      some (Call.genImage (promptFromEngineered ep)
        (extractTextAndGeneratePlates
          ((addQuotesToPrompt env1.quoteNet m.userPrompt).1))
        m.referenceImages) ∧
    (handleGenerate env2 (handleGenerate env1 m none).1
        ((handleGenerate env1 m none).1.lastConfig)).2 =
      [Call.genImage (promptFromEngineered ep)
        (extractTextAndGeneratePlates
          ((addQuotesToPrompt env1.quoteNet m.userPrompt).1))
        m.referenceImages] := by
  have h1 : (handleGenerate env1 m none).1 =
      { m with
        appState := .SUCCESS
        errorMessage := none
        resultUrl := some ("data:image/png;base64," ++ dd)
        lastConfig := some ⟨promptFromEngineered ep,
          extractTextAndGeneratePlates
            ((addQuotesToPrompt env1.quoteNet m.userPrompt).1),
          m.referenceImages⟩ } := by
    unfold handleGenerate
    rw [handleGenerateSync_proceeds m k hk hp]
    simp only [if_pos]
    rw [handleGenerateCont_first_success env1 _ ep mm dd he hg]
  have hcfg : (handleGenerate env1 m none).1.lastConfig =
      some ⟨promptFromEngineered ep,
        extractTextAndGeneratePlates
          ((addQuotesToPrompt env1.quoteNet m.userPrompt).1),
        m.referenceImages⟩ := by
    rw [h1]
  have hkey2 : (handleGenerate env1 m none).1.apiKey = some k := by
    rw [h1]
    exact hk
  refine ⟨by rw [h1], hcfg, ?_, ?_⟩
  · unfold handleGenerate
    rw [handleGenerateSync_proceeds m k hk hp]
    simp only [if_pos]
    rw [handleGenerateCont_first_trace env1 _ ep he]
    exact getLast_cons_append_pair _ _ _ _
  · rw [hcfg, h1]
    unfold handleGenerate
    rw [handleGenerateSync_retry _ k _ (by exact hk)]
    simp only [if_pos]
    rw [handleGenerateCont_retry_trace]

/-- Witness for C2 at a concrete successful first generation and retry. -/
theorem handleGenerate_retry_reuses_witness :
    mAzadi.apiKey = some "key" ∧ jsTrim mAzadi.userPrompt ≠ "" ∧
    ((handleGenerate envAzadi mAzadi none).1.appState = AppState.SUCCESS ∧
    (handleGenerate envAzadi mAzadi none).1.lastConfig =
      some ⟨promptFromEngineered epAzadi,
        extractTextAndGeneratePlates
          ((addQuotesToPrompt envAzadi.quoteNet mAzadi.userPrompt).1),
        mAzadi.referenceImages⟩ ∧
    (handleGenerate envAzadi mAzadi none).2.getLast? =
      some (Call.genImage (promptFromEngineered epAzadi)
        (extractTextAndGeneratePlates
          ((addQuotesToPrompt envAzadi.quoteNet mAzadi.userPrompt).1))
        mAzadi.referenceImages) ∧
    (handleGenerate envAzadi (handleGenerate envAzadi mAzadi none).1
        ((handleGenerate envAzadi mAzadi none).1.lastConfig)).2 =
      [Call.genImage (promptFromEngineered epAzadi)
        (extractTextAndGeneratePlates
          ((addQuotesToPrompt envAzadi.quoteNet mAzadi.userPrompt).1))
        mAzadi.referenceImages]) :=
  ⟨rfl, by decide, handleGenerate_retry_reuses envAzadi envAzadi mAzadi
    "key" "image/png" "QUJD" epAzadi rfl (by decide) rfl rfl⟩

/-- When a credential is in memory, the first invariant clause forces
the credential modal to be closed. -/
theorem modal_false_of_key (m : Model)
    (h1 : m.isApiKeyModalOpen = true → m.appState = .IDLE ∧ m.apiKey = none)
    (hkey : m.apiKey ≠ none) : m.isApiKeyModalOpen = false := by
  cases hb : m.isApiKeyModalOpen with
  | false => rfl
  | true => exact absurd (h1 hb).2 hkey

/-- `handleError` preserves the invariant whenever it starts from a
state with a closed modal and a credential in memory. -/
theorem appInv_handleError (m : Model) (msg : String) (err : Option String)
    (hmodal : m.isApiKeyModalOpen = false) (hkey : m.apiKey ≠ none) :
    AppInv (handleError m msg err .ERROR) := by
  simp only [handleError]
  split
  · exact ⟨fun _ => ⟨rfl, rfl⟩, fun hne => absurd rfl hne⟩
  · refine ⟨fun hmm => ?_, fun _ => hkey⟩
    simp [hmodal] at hmm

/-- Every event of the application preserves the invariant. -/
theorem appInv_step (m : Model) (e : Event) (h : AppInv m) :
    AppInv (step m e) := by
  obtain ⟨h1, h2⟩ := h
  cases e with
  | saveApiKey k =>
    refine ⟨fun hmm => ?_, fun _ => ?_⟩
    · simp [step, handleSaveApiKey] at hmm
    · simp [step, handleSaveApiKey]
  | setUserPrompt s => exact ⟨h1, h2⟩
  | setReferenceImages l => exact ⟨h1, h2⟩
  | setAspectRatio r => exact ⟨h1, h2⟩
  | startOver =>
    exact ⟨fun hmm => ⟨rfl, (h1 hmm).2⟩, fun hne => absurd rfl hne⟩
  | genStart cfg =>
    simp only [step]
    unfold handleGenerateSync
    by_cases hkey : m.apiKey = none
    · rw [if_pos hkey]
      have hidle : m.appState = .IDLE := by
        by_contra hne
        exact h2 hne hkey
      exact ⟨fun _ => ⟨hidle, hkey⟩, fun hne => absurd hidle hne⟩
    · rw [if_neg hkey]
      have hmodal := modal_false_of_key m h1 hkey
      cases cfg with
      | some c =>
        rw [if_neg (by simp)]
        refine ⟨fun hmm => ?_, fun _ => hkey⟩
        simp [hmodal] at hmm
      | none =>
        by_cases hp : jsTrim m.userPrompt = ""
        · rw [if_pos (by simp [hp])]
          exact appInv_handleError m _ none hmodal hkey
        · rw [if_neg (by simp [hp])]
          refine ⟨fun hmm => ?_, fun _ => hkey⟩
          simp [hmodal] at hmm
  | genFinish cfg env =>
    simp only [step]
    split
    · rename_i hload
      have hkey : m.apiKey ≠ none := by
        apply h2
        rw [hload]
        simp
      have hmodal := modal_false_of_key m h1 hkey
      unfold handleGenerateCont
      cases cfg with
      | some c =>
        cases hgen : generateImage c.prompt c.textPlates c.referenceImages
            env.genResponse with
        | ok url =>
          simp only [hgen]
          refine ⟨fun hmm => ?_, fun _ => hkey⟩
          simp [hmodal] at hmm
        | error err =>
          simp only [hgen]
          exact appInv_handleError _ _ _ hmodal hkey
      | none =>
        cases henv : env.engineerRes with
        | error e =>
          simp only [henv]
          exact appInv_handleError _ _ _ hmodal hkey
        | ok ep =>
          simp only [henv]
          cases hgen : generateImage (promptFromEngineered ep)
              (extractTextAndGeneratePlates
                ((addQuotesToPrompt env.quoteNet m.userPrompt).1))
              m.referenceImages env.genResponse with
          | ok url =>
            simp only [hgen]
            refine ⟨fun hmm => ?_, fun _ => hkey⟩
            simp [hmodal] at hmm
          | error err =>
            simp only [hgen]
            exact appInv_handleError _ _ _ hmodal hkey
    · exact ⟨h1, h2⟩

/-- Every reachable state satisfies the invariant. -/
theorem appInv_reachable (m : Model) (h : Reachable m) : AppInv m := by
  induction h with
  | base stored =>
    cases stored with
    | none => exact ⟨fun _ => ⟨rfl, rfl⟩, fun hne => absurd rfl hne⟩
    | some k =>
      exact ⟨fun hmm => by simp [initModel] at hmm, fun hne => absurd rfl hne⟩
  | next e _ ih => exact appInv_step _ e ih

/-- The invariant caps the number of simultaneously rendered views. -/
theorem viewsShown_le_one_of_inv (m : Model) (h : AppInv m) :
    viewsShown m ≤ 1 := by
  obtain ⟨h1, h2⟩ := h
  unfold viewsShown
  cases hb : m.isApiKeyModalOpen with
  | true =>
    obtain ⟨hidle, -⟩ := h1 hb
    simp [hidle]
  | false =>
    cases hs : m.appState <;> simp [hs] <;> split <;> simp

/-- C8 as amended: in every reachable application state, at most one of
the four user-visible views — loading indicator, success view, error
view, credential-entry prompt — is shown at a time (the claim's
"exactly one" fails: in the idle state with a stored credential only
the input form is shown, none of the four). -/
theorem views_at_most_one (m : Model) (h : Reachable m) :
    viewsShown m ≤ 1 :=
  viewsShown_le_one_of_inv m (appInv_reachable m h)

/-- Witness for the amended C8 at the concrete no-credential start
state, which shows exactly the credential-entry prompt. -/
theorem views_at_most_one_witness :
    Reachable (initModel none) ∧ viewsShown (initModel none) ≤ 1 :=
  ⟨Reachable.base none,
    views_at_most_one (initModel none) (Reachable.base none)⟩

/-- Counterexample to C8 as stated: the start state with a stored
credential is reachable and shows none of the four views — only the
generation form — so "exactly one" fails. -/
theorem views_exactly_one_counterexample :
    Reachable (initModel (some "key")) ∧
    viewsShown (initModel (some "key")) = 0 :=
  ⟨Reachable.base (some "key"), rfl⟩
